import Mathlib

/-!
# Verification of the mobile-clinic routing core

Shallow embedding of the routing optimizer (`hour5_vrp_solver.py`) and the
resource allocator (`app.py`, `allocate_resources`) of the mobile-clinic
repository, together with proofs settling the specification claims.

Conventions:
* Python ints are embedded as `Nat`/`Int`; Python floats as `ℚ` (exact
  real arithmetic, the spec's reading of the numeric formulas).
* Python `int(x)` (truncation toward zero) is `pyInt`; Python's list
  indexing is embedded with `List.getD` (all call sites of the claims use
  in-range indices).
* The dict mutation performed by `solve_routing` (it writes
  `data["num_vehicles"]`) is embedded by explicit state passing: the
  function returns the updated data model alongside the result.
* The external constraint-solver search is embedded as an oracle
  (`Option Solution`); the Time-dimension constraints that
  `solve_routing` installs (slack_max = 0, capacity = max_time,
  fix_start_cumul_to_zero = True) are embedded as the `Feasible`
  predicate on candidate solutions.
-/

namespace MobileClinic

/-- The OR-Tools data dictionary built by `hour4_data_model.build_data_model`
and extended by `app.run_solver` (which sets `prizes` to the severity
scores). Fields are the dictionary entries the solver reads. -/
structure DataModel where
  time_matrix : List (List Nat)
  cases : List Nat
  prizes : List ℚ
  depot : Nat
  village_ids : List String
  num_vehicles : Nat
deriving DecidableEq, Repr

/-- `time_callback` of `hour5_vrp_solver.py` lines 25-38: travel time plus a
service time of `int(30 + cases * 1.5)` capped at 120 for non-depot origins.
For a natural caseload `c`, `int(30 + 1.5 * c) = (60 + 3 * c) / 2` with
truncating natural division. -/
def time_callback (d : DataModel) (from_node to_node : Nat) : Nat :=
  let travel_time := (d.time_matrix.getD from_node []).getD to_node 0
  let service_time :=
    if from_node = d.depot then 0
    else min 120 ((60 + 3 * d.cases.getD from_node 0) / 2)
  travel_time + service_time

/-- The service-time formula exactly as the spec words it (§4.2):
`min(120, 30 + 1.5 × active_cases)`, truncated to an integer (for a
non-negative argument, truncation is the floor). -/
def specServiceTime (c : Nat) : ℤ :=
  min 120 ⌊(30 : ℚ) + 3 / 2 * c⌋

lemma floor_service_eq (c : Nat) : ⌊(30 : ℚ) + 3 / 2 * c⌋ = ((60 + 3 * c) / 2 : ℕ) := by
  have h : (30 : ℚ) + 3 / 2 * c = ((60 + 3 * c : ℕ) : ℚ) / ((2 : ℕ) : ℚ) := by
    push_cast
    ring
  rw [h, Rat.floor_natCast_div_natCast]
  omega

lemma specServiceTime_eq (c : Nat) :
    specServiceTime c = (min 120 ((60 + 3 * c) / 2) : ℕ) := by
  rw [specServiceTime, floor_service_eq]
  push_cast
  rfl

/-- **C2** — For every arc `(i → j)` the cost charged by the optimizer is
`time[i][j] + service_time(i)`, where `service_time` is zero at the depot and
otherwise `min(120, 30 + 1.5 × active_cases(i))` truncated to an integer; at
a caseload of 1000 the service time is exactly 120 minutes. -/
theorem C2_arc_cost_formula :
    (∀ (d : DataModel) (i j : Nat),
      (time_callback d i j : ℤ) =
        ((d.time_matrix.getD i []).getD j 0 : ℤ) +
          (if i = d.depot then 0 else specServiceTime (d.cases.getD i 0))) ∧
    specServiceTime 1000 = 120 := by
  constructor
  · intro d i j
    rw [time_callback]
    by_cases h : i = d.depot
    · simp [h]
    · simp only [h, if_false, specServiceTime_eq]
      push_cast
      ring
  · rw [specServiceTime_eq]
    rfl

/-- Python `int()` applied to an exact rational: truncation toward zero. -/
def pyInt (q : ℚ) : ℤ := if q < 0 then ⌈q⌉ else ⌊q⌋

/-- Skip-penalty computation of `hour5_vrp_solver.py` lines 57-61:
`penalty = int(prizes[node_idx] * 10000)`, replaced by the floor value 500
when it is zero. -/
def nodePenalty (prizes : List ℚ) (node_idx : Nat) : ℤ :=
  let penalty := pyInt (prizes.getD node_idx 0 * 10000)
  if penalty = 0 then 500 else penalty

/-- The disjunction list built by lines 53-63: one `(node, penalty)` pair per
non-depot node; the depot is skipped by the `continue`. -/
def disjunctions (d : DataModel) : List (Nat × ℤ) :=
  (List.range d.time_matrix.length).filterMap fun node_idx =>
    if node_idx = d.depot then none else some (node_idx, nodePenalty d.prizes node_idx)

/-- The penalty formula exactly as the claim words it: `round(severity × 10000)`,
with the floor value 500 used when that rounds to zero. -/
def specRoundPenalty (severity : ℚ) : ℤ :=
  if round (severity * 10000) = 0 then 500 else round (severity * 10000)

/-- A two-node scenario whose node 1 has severity 0.00009: `0.00009 × 10000 = 0.9`
rounds to 1 but truncates to 0, separating the claim from the code. -/
def dataC3 : DataModel :=
  { time_matrix := [[0, 5], [5, 0]], cases := [0, 0], prizes := [0, 9 / 100000],
    depot := 0, village_ids := ["V01", "V02"], num_vehicles := 1 }

/-- **C3 (counterexample)** — at severity 0.00009 the claim's formula
`round(severity × 10000)` gives 1, but the code attaches the floor penalty 500
(it truncates `0.9` to `0` with `int()` and then applies the floor). -/
theorem C3_counterexample_round_vs_trunc :
    nodePenalty dataC3.prizes 1 = 500 ∧
    specRoundPenalty (dataC3.prizes.getD 1 0) = 1 ∧ ((500 : ℤ)) ≠ 1 := by
  have hq : dataC3.prizes.getD 1 0 = 9 / 100000 := rfl
  refine ⟨?_, ?_, by decide⟩
  · have hp : pyInt (dataC3.prizes.getD 1 0 * 10000) = 0 := by
      rw [hq, pyInt]
      norm_num
    rw [nodePenalty]
    rw [hp]
    rfl
  · rw [specRoundPenalty, hq, round_eq]
    norm_num

/-- **C3 (amended)** — for every non-depot node `i` in range, the skip penalty
attached to `i` equals `int(severity(i) × 10000)` (truncation toward zero, not
rounding), except that when that value is zero the floor penalty 500 is used;
the depot is never given a skip penalty; and when all severities are zero every
listed node receives penalty exactly 500. -/
theorem C3_penalty_floor_amended (d : DataModel) :
    (∀ p ∈ disjunctions d, p.1 ≠ d.depot) ∧
    (∀ node_idx, node_idx < d.time_matrix.length → node_idx ≠ d.depot →
      (node_idx,
        if pyInt (d.prizes.getD node_idx 0 * 10000) = 0 then (500 : ℤ)
        else pyInt (d.prizes.getD node_idx 0 * 10000)) ∈ disjunctions d) ∧
    ((∀ q ∈ d.prizes, q = 0) → ∀ p ∈ disjunctions d, p.2 = 500) := by
  refine ⟨?_, ?_, ?_⟩
  · intro p hp
    rcases List.mem_filterMap.mp hp with ⟨i, _, hi⟩
    by_cases h : i = d.depot
    · simp [h] at hi
    · rw [if_neg h] at hi
      cases hi
      exact h
  · intro node_idx hlen hne
    refine List.mem_filterMap.mpr ⟨node_idx, List.mem_range.mpr hlen, ?_⟩
    rw [if_neg hne]
    rfl
  · intro hz p hp
    rcases List.mem_filterMap.mp hp with ⟨i, _, hi⟩
    by_cases h : i = d.depot
    · simp [h] at hi
    · rw [if_neg h] at hi
      cases hi
      have hq : d.prizes.getD i 0 = 0 := by
        rcases Nat.lt_or_ge i d.prizes.length with hlt | hge
        · have hm : d.prizes.getD i 0 ∈ d.prizes := by
            rw [List.getD_eq_getElem d.prizes 0 hlt]
            exact List.getElem_mem hlt
          exact hz _ hm
        · exact List.getD_eq_default d.prizes 0 hge
      show nodePenalty d.prizes i = 500
      rw [nodePenalty, hq, zero_mul]
      norm_num [pyInt]

/-- All-zero severities: concrete input for the amended C3 theorem. -/
def dataC3zero : DataModel :=
  { time_matrix := [[0, 5], [5, 0]], cases := [0, 0], prizes := [0, 0],
    depot := 0, village_ids := ["V01", "V02"], num_vehicles := 1 }

/-- Witness for the amended C3 theorem: in the all-zero-severity scenario,
node 1 is listed with penalty 500 and every listed node has penalty 500. -/
theorem C3_penalty_floor_amended_witness :
    (1, (500 : ℤ)) ∈ disjunctions dataC3zero ∧
    (∀ p ∈ disjunctions dataC3zero, p.2 = 500) := by
  have hz : pyInt (dataC3zero.prizes.getD 1 0 * 10000) = 0 := by
    rw [show dataC3zero.prizes.getD 1 0 = 0 from rfl, zero_mul]
    norm_num [pyInt]
  have hall : ∀ q ∈ dataC3zero.prizes, q = 0 := by
    intro q hq
    simp only [dataC3zero, List.mem_cons, List.not_mem_nil, or_false] at hq
    rcases hq with h | h <;> exact h
  constructor
  · have h := (C3_penalty_floor_amended dataC3zero).2.1 1 (by decide) (by decide)
    rwa [if_pos hz] at h
  · exact (C3_penalty_floor_amended dataC3zero).2.2 hall

/-- A candidate solution of the routing model: for each vehicle, the ordered
non-depot nodes it visits (depot start/end are implicit, as in the
`RoutingModel`). The external search (`routing.SolveWithParameters`, line 71)
is embedded as an oracle producing an optional `Solution`. -/
structure Solution where
  routes : List (List Nat)
deriving DecidableEq, Repr

/-- Sum of the `time_callback` arc costs along a node path. -/
def pathCost (d : DataModel) : List Nat → Nat
  | a :: b :: rest => time_callback d a b + pathCost d (b :: rest)
  | _ => 0

/-- A vehicle's depot-to-depot route time: the Time-dimension cumul at its
end node (line 94). With `slack_max = 0` and `fix_start_cumul_to_zero = True`
(lines 44-50) this is exactly the sum of the realized arc costs. -/
def routeTime (d : DataModel) (route : List Nat) : Nat :=
  pathCost d (d.depot :: route ++ [d.depot])

/-- The successive values of the Time-dimension cumul variables along a path,
starting from `acc`: each next cumul is the previous plus the arc cost
(slack is fixed to zero by `slack_max = 0`). -/
def cumulsFrom (d : DataModel) (acc : Nat) : List Nat → List Nat
  | [] => []
  | [_] => [acc]
  | a :: b :: rest => acc :: cumulsFrom d (acc + time_callback d a b) (b :: rest)

/-- Cumul values along a vehicle's depot-to-depot path, starting at zero
(`fix_start_cumul_to_zero = True`). -/
def routeCumuls (d : DataModel) (route : List Nat) : List Nat :=
  cumulsFrom d 0 (d.depot :: route ++ [d.depot])

/-- The hard constraints the `Time` dimension of lines 44-50 imposes on any
solution the search returns: one route per vehicle, and every cumul variable
bounded by the `capacity = max_time`. -/
def Feasible (d : DataModel) (max_time : Nat) (sol : Solution) : Prop :=
  sol.routes.length = d.num_vehicles ∧
  ∀ r ∈ sol.routes, ∀ c ∈ routeCumuls d r, c ≤ max_time

instance (d : DataModel) (max_time : Nat) (sol : Solution) :
    Decidable (Feasible d max_time sol) := by
  rw [Feasible]
  infer_instance

/-- The dictionary returned by `solve_routing` (lines 74-107); `route_ids`
is the insertion-ordered dict of van names to village-ID sequences. -/
structure SolveResult where
  route_ids : List (String × List String)
  total_time : Nat
  status : String
deriving DecidableEq, Repr

/-- `solve_routing` of `hour5_vrp_solver.py` lines 7-107. The external search
is an oracle argument; the dict mutation `data["num_vehicles"] = fleet_size`
(line 13) is embedded by returning the updated data model. Python's
`max(vehicle_route_times) if vehicle_route_times else 0` over non-negative
ints is `List.foldl max 0`. -/
def solve_routing (data : DataModel) (fleet_size : Nat) (max_time : Nat)
    (search : Option Solution) : DataModel × SolveResult :=
  let d := { data with num_vehicles := fleet_size }
  match search with
  | none => (d, { route_ids := [], total_time := 0, status := "NO_SOLUTION" })
  | some sol =>
    let depot_name := d.village_ids.getD d.depot ""
    let route_ids := (List.range d.num_vehicles).filterMap fun vehicle_id =>
      let route_nodes := d.depot :: sol.routes.getD vehicle_id [] ++ [d.depot]
      let route_names := route_nodes.map fun n => d.village_ids.getD n ""
      if (route_names.filter fun v => v != depot_name).isEmpty then none
      else some ("Van_" ++ toString (vehicle_id + 1), route_names)
    let vehicle_route_times := (List.range d.num_vehicles).map fun vehicle_id =>
      routeTime d (sol.routes.getD vehicle_id [])
    (d, { route_ids := route_ids,
          total_time := vehicle_route_times.foldl max 0,
          status := "SUCCESS" })

lemma pathCost_mem_cumulsFrom (d : DataModel) :
    ∀ (l : List Nat), l ≠ [] → ∀ acc : Nat, acc + pathCost d l ∈ cumulsFrom d acc l
  | [], h, _ => absurd rfl h
  | [x], _, acc => by
      show acc + 0 ∈ [acc]
      simp
  | a :: b :: rest, _, acc => by
      have ih := pathCost_mem_cumulsFrom d (b :: rest) (List.cons_ne_nil b rest)
        (acc + time_callback d a b)
      show acc + (time_callback d a b + pathCost d (b :: rest)) ∈
        acc :: cumulsFrom d (acc + time_callback d a b) (b :: rest)
      refine List.mem_cons_of_mem _ ?_
      rw [← add_assoc]
      exact ih

lemma routeTime_mem_routeCumuls (d : DataModel) (route : List Nat) :
    routeTime d route ∈ routeCumuls d route := by
  have h := pathCost_mem_cumulsFrom d (d.depot :: route ++ [d.depot])
    (List.cons_ne_nil _ _) 0
  rwa [zero_add] at h

/-- **C1** — in every SUCCESS result of `solve_routing`, each vehicle's route
time (the sum of the transit-plus-service arc costs along its depot-to-depot
path) is at most the time budget: the Time dimension bounds every cumul
variable by `max_time`, and with zero slack and zero start the cumul at the
route end is exactly that sum of arc costs. -/
theorem C1_route_time_within_budget (data : DataModel) (fleet_size max_time : Nat)
    (sol : Solution)
    (hfeas : Feasible { data with num_vehicles := fleet_size } max_time sol) :
    (solve_routing data fleet_size max_time (some sol)).2.status = "SUCCESS" ∧
    ∀ v, v < fleet_size →
      routeTime { data with num_vehicles := fleet_size } (sol.routes.getD v []) ≤ max_time := by
  refine ⟨rfl, ?_⟩
  intro v hv
  have hlen : v < sol.routes.length := by
    rw [hfeas.1]
    exact hv
  have hmem : sol.routes.getD v [] ∈ sol.routes := by
    rw [List.getD_eq_getElem sol.routes [] hlen]
    exact List.getElem_mem hlen
  exact hfeas.2 _ hmem _ (routeTime_mem_routeCumuls _ _)

/-- A concrete two-node, two-van instance for the witnesses. -/
def dataC1 : DataModel :=
  { time_matrix := [[0, 10], [10, 0]], cases := [0, 4], prizes := [0, 1],
    depot := 0, village_ids := ["V01", "V02"], num_vehicles := 2 }

/-- A concrete solution for `dataC1`: van 0 visits node 1, van 1 stays home. -/
def solC1 : Solution := { routes := [[1], []] }

/-- Witness for C1 at a concrete feasible instance. -/
theorem C1_route_time_within_budget_witness :
    Feasible { dataC1 with num_vehicles := 2 } 480 solC1 ∧
    (solve_routing dataC1 2 480 (some solC1)).2.status = "SUCCESS" ∧
    routeTime { dataC1 with num_vehicles := 2 } [1] ≤ 480 := by
  have hf : Feasible { dataC1 with num_vehicles := 2 } 480 solC1 := by
    constructor
    · rfl
    · decide
  exact ⟨hf, (C1_route_time_within_budget dataC1 2 480 solC1 hf).1,
    (C1_route_time_within_budget dataC1 2 480 solC1 hf).2 0 (by decide)⟩

/-- **C4** — when the underlying search finds no solution, `solve_routing`
returns (it does not raise) a result whose status is `NO_SOLUTION`, whose
route mapping is empty and whose total time is 0. -/
theorem C4_no_solution_result (data : DataModel) (fleet_size max_time : Nat) :
    (solve_routing data fleet_size max_time none).2 =
      { route_ids := [], total_time := 0, status := "NO_SOLUTION" } := rfl

lemma le_foldl_max : ∀ (l : List Nat) (a : Nat),
    (∀ x ∈ l, x ≤ l.foldl max a) ∧ a ≤ l.foldl max a
  | [], a => ⟨fun x hx => absurd hx (List.not_mem_nil x), le_refl a⟩
  | b :: t, a => by
      have ih := le_foldl_max t (max a b)
      have hfold : (b :: t).foldl max a = t.foldl max (max a b) := rfl
      refine ⟨?_, ?_⟩
      · intro x hx
        rw [hfold]
        rcases List.mem_cons.mp hx with h | h
        · rw [h]
          exact le_trans (le_max_right a b) ih.2
        · exact ih.1 x h
      · rw [hfold]
        exact le_trans (le_max_left a b) ih.2

lemma foldl_max_mem : ∀ (l : List Nat) (a : Nat),
    l.foldl max a = a ∨ l.foldl max a ∈ l
  | [], _ => Or.inl rfl
  | b :: t, a => by
      rcases foldl_max_mem t (max a b) with h | h
      · rcases max_choice a b with hab | hab
        · exact Or.inl (by rw [List.foldl_cons, h, hab])
        · exact Or.inr (by rw [List.foldl_cons, h, hab]; exact List.mem_cons_self b t)
      · exact Or.inr (List.mem_cons_of_mem b h)

/-- **C5** — in every SUCCESS result, the reported `total_time` is the
maximum over all vehicles (including vehicles omitted from the route mapping)
of that vehicle's route completion time: it bounds every vehicle's route time
and is attained by one of them. -/
theorem C5_total_time_is_max (data : DataModel) (fleet_size max_time : Nat)
    (sol : Solution) :
    (solve_routing data fleet_size max_time (some sol)).2.status = "SUCCESS" ∧
    (∀ v, v < fleet_size →
      routeTime { data with num_vehicles := fleet_size } (sol.routes.getD v []) ≤
        (solve_routing data fleet_size max_time (some sol)).2.total_time) ∧
    (0 < fleet_size → ∃ v, v < fleet_size ∧
      (solve_routing data fleet_size max_time (some sol)).2.total_time =
        routeTime { data with num_vehicles := fleet_size } (sol.routes.getD v [])) := by
  have htot : (solve_routing data fleet_size max_time (some sol)).2.total_time =
      ((List.range fleet_size).map fun v =>
        routeTime { data with num_vehicles := fleet_size } (sol.routes.getD v [])).foldl max 0 :=
    rfl
  refine ⟨rfl, ?_, ?_⟩
  · intro v hv
    rw [htot]
    refine (le_foldl_max _ 0).1 _ ?_
    exact List.mem_map.mpr ⟨v, List.mem_range.mpr hv, rfl⟩
  · intro hpos
    rcases foldl_max_mem ((List.range fleet_size).map fun v =>
        routeTime { data with num_vehicles := fleet_size } (sol.routes.getD v [])) 0 with h | h
    · refine ⟨0, hpos, ?_⟩
      have hle := (le_foldl_max ((List.range fleet_size).map fun v =>
          routeTime { data with num_vehicles := fleet_size } (sol.routes.getD v [])) 0).1
        (routeTime { data with num_vehicles := fleet_size } (sol.routes.getD 0 []))
        (List.mem_map.mpr ⟨0, List.mem_range.mpr hpos, rfl⟩)
      rw [htot, h]
      rw [h] at hle
      omega
    · rcases List.mem_map.mp h with ⟨v, hv, heq⟩
      exact ⟨v, List.mem_range.mp hv, by rw [htot, ← heq]⟩

/-- Witness for C5 at a concrete instance with two vans. -/
theorem C5_total_time_is_max_witness :
    (0 : Nat) < 2 ∧ ∃ v, v < 2 ∧
      (solve_routing dataC1 2 480 (some solC1)).2.total_time =
        routeTime { dataC1 with num_vehicles := 2 } (solC1.routes.getD v []) :=
  ⟨by decide, (C5_total_time_is_max dataC1 2 480 solC1).2.2 (by decide)⟩

/-- A data model whose `num_vehicles` entry starts at 5 (counterexample
input for C10). -/
def dataC10 : DataModel :=
  { time_matrix := [[0]], cases := [0], prizes := [0], depot := 0,
    village_ids := ["V01"], num_vehicles := 5 }

/-- **C10 (counterexample)** — `solve_routing` is not free of side effects on
the caller's data dictionary: line 13 executes
`data["num_vehicles"] = fleet_size`, so calling it with `fleet_size = 2` on a
model whose `num_vehicles` entry is 5 leaves that entry equal to 2. -/
theorem C10_counterexample_mutates_num_vehicles :
    dataC10.num_vehicles = 5 ∧
    (solve_routing dataC10 2 480 none).1.num_vehicles = 2 ∧ (2 : Nat) ≠ 5 :=
  ⟨rfl, rfl, by decide⟩

/-- **C10 (amended)** — `solve_routing` overwrites exactly one entry of the
caller's data dictionary: `num_vehicles` becomes `fleet_size`; the
`time_matrix`, `cases`, `prizes`, `depot` and `village_ids` entries are
unchanged, and no other state persists between calls. -/
theorem C10_frame_amended (data : DataModel) (fleet_size max_time : Nat)
    (search : Option Solution) :
    (solve_routing data fleet_size max_time search).1.num_vehicles = fleet_size ∧
    (solve_routing data fleet_size max_time search).1.time_matrix = data.time_matrix ∧
    (solve_routing data fleet_size max_time search).1.cases = data.cases ∧
    (solve_routing data fleet_size max_time search).1.prizes = data.prizes ∧
    (solve_routing data fleet_size max_time search).1.depot = data.depot ∧
    (solve_routing data fleet_size max_time search).1.village_ids = data.village_ids := by
  cases search <;> exact ⟨rfl, rfl, rfl, rfl, rfl, rfl⟩

/-- A row of the merged village table (`load_scenario`), as read by
`allocate_resources` through `df.set_index("Village_ID")`. -/
structure VillageRow where
  village_name : String
  disease_type : String
  active_cases : Int
  severity_score : ℚ
deriving DecidableEq, Repr

/-- A stop record of the resource manifest built by `allocate_resources`
(`app.py` lines 370-376). The display-only columns (village name, disease,
case count, severity rounded for display) are copies of the looked-up row and
carry no allocation logic; the fields below are the ones the allocation
computes. -/
structure ManifestRow where
  stop : Nat
  village_id : String
  kits : Int
  nurses : Int
deriving DecidableEq, Repr

/-- The kit tier of the heuristic (`app.py` line 368):
`50 if sev >= 8 else (20 if sev >= 4 else 10)`. -/
def kitTier (sev : ℚ) : Int :=
  if sev ≥ 8 then 50 else if sev ≥ 4 then 20 else 10

/-- The loop of `allocate_resources` (`app.py` lines 362-377):
`enumerate(route_ids)` with the running remaining capacity threaded through.
A stop is skipped when it is the depot `"V01"`, absent from the lookup, or
capacity is exhausted (`remaining <= 0`); otherwise its kits are the tier
capped by the remaining capacity and its nurses `max(2, ceil(kits / 10))`. -/
def allocGo (lookup : String → Option VillageRow) :
    Nat → Int → List String → List ManifestRow × Int
  | _, remaining, [] => ([], remaining)
  | step, remaining, vid :: rest =>
    match lookup vid with
    | none => allocGo lookup (step + 1) remaining rest
    | some r =>
      if vid = "V01" ∨ remaining ≤ 0 then
        allocGo lookup (step + 1) remaining rest
      else
        let kits := min (kitTier r.severity_score) remaining
        let nurses := max 2 ⌈(kits : ℚ) / 10⌉
        let tail_result := allocGo lookup (step + 1) (remaining - kits) rest
        ({ stop := step, village_id := vid, kits := kits, nurses := nurses } :: tail_result.1,
          tail_result.2)

/-- `allocate_resources` of `app.py` lines 354-378: the manifest rows and the
capacity consumed, `van_capacity - remaining`. -/
def allocate_resources (route_ids : List String) (lookup : String → Option VillageRow)
    (van_capacity : Int) : List ManifestRow × Int :=
  let result := allocGo lookup 0 van_capacity route_ids
  (result.1, van_capacity - result.2)

/-- **C6** — the allocator processes the sequence strictly in visitation
order: an eligible village at the head is assigned its severity-tier kits
capped by the remaining capacity with `nurses = max(2, ceil(kits/10))`, and
its manifest row is emitted before — and is unaffected by — the processing of
the remaining stops; the tiers follow the claim's intervals (severity ≥ 8 →
50, in [4,8) → 20, else 10); and once remaining capacity is exhausted every
subsequent village receives nothing (no manifest row), while rows already
emitted are kept. -/
theorem C6_allocation_in_order (lookup : String → Option VillageRow) :
    (∀ step remaining vid rest r, lookup vid = some r → vid ≠ "V01" → 0 < remaining →
      allocGo lookup step remaining (vid :: rest) =
        ({ stop := step, village_id := vid,
           kits := min (kitTier r.severity_score) remaining,
           nurses := max 2 ⌈((min (kitTier r.severity_score) remaining : ℤ) : ℚ) / 10⌉ } ::
            (allocGo lookup (step + 1)
              (remaining - min (kitTier r.severity_score) remaining) rest).1,
          (allocGo lookup (step + 1)
            (remaining - min (kitTier r.severity_score) remaining) rest).2)) ∧
    (∀ sev : ℚ, (8 ≤ sev → kitTier sev = 50) ∧ (4 ≤ sev ∧ sev < 8 → kitTier sev = 20) ∧
      (sev < 4 → kitTier sev = 10)) ∧
    (∀ vids step remaining, remaining ≤ 0 → (allocGo lookup step remaining vids).1 = []) := by
  refine ⟨?_, ?_, ?_⟩
  · intro step remaining vid rest r hr hvid hpos
    have hcond : ¬(vid = "V01" ∨ remaining ≤ 0) := by
      push_neg
      exact ⟨hvid, hpos⟩
    simp only [allocGo, hr, if_neg hcond]
  · intro sev
    refine ⟨?_, ?_, ?_⟩
    · intro h
      rw [kitTier, if_pos h]
    · intro h
      rw [kitTier, if_neg (not_le.mpr h.2), if_pos h.1]
    · intro h
      have h8 : ¬ sev ≥ 8 := not_le.mpr (h.trans_le (by norm_num))
      have h4 : ¬ sev ≥ 4 := not_le.mpr h
      rw [kitTier, if_neg h8, if_neg h4]
  · intro vids
    induction vids with
    | nil => intro step remaining _; rfl
    | cons vid rest ih =>
      intro step remaining h
      cases hr : lookup vid with
      | none =>
        simp only [allocGo, hr]
        exact ih (step + 1) remaining h
      | some r =>
        simp only [allocGo, hr, if_pos (Or.inr h)]
        exact ih (step + 1) remaining h

/-- Concrete lookup for the allocator witnesses: one known village `"V09"`
with severity 9. -/
def lookupC6 : String → Option VillageRow := fun vid =>
  if vid = "V09" then
    some { village_name := "Alpha", disease_type := "Flu", active_cases := 3,
           severity_score := 9 }
  else none

/-- Witness for C6 at concrete inputs: an in-order allocation step, the three
tiers, and exhausted capacity producing no rows. -/
theorem C6_allocation_in_order_witness :
    allocGo lookupC6 0 60 ["V09"] =
      ([{ stop := 0, village_id := "V09", kits := min (kitTier 9) 60,
          nurses := max 2 ⌈((min (kitTier 9) 60 : ℤ) : ℚ) / 10⌉ }],
        60 - min (kitTier 9) 60) ∧
    kitTier 9 = 50 ∧ kitTier 5 = 20 ∧ kitTier 1 = 10 ∧
    (allocGo lookupC6 3 0 ["V09", "V10"]).1 = [] := by
  refine ⟨?_, ?_, ?_, ?_, ?_⟩
  · exact (C6_allocation_in_order lookupC6).1 0 60 "V09" [] _ rfl (by decide) (by decide)
  · exact ((C6_allocation_in_order lookupC6).2.1 9).1 (by decide)
  · exact ((C6_allocation_in_order lookupC6).2.1 5).2.1 (by decide)
  · exact ((C6_allocation_in_order lookupC6).2.1 1).2.2 (by decide)
  · exact (C6_allocation_in_order lookupC6).2.2 ["V09", "V10"] 3 0 (by decide)

lemma allocGo_invariant (lookup : String → Option VillageRow) :
    ∀ (vids : List String) (step : Nat) (remaining : Int),
      (allocGo lookup step remaining vids).2 =
        remaining - ((allocGo lookup step remaining vids).1.map ManifestRow.kits).sum ∧
      (0 ≤ remaining → 0 ≤ (allocGo lookup step remaining vids).2) ∧
      (∀ row ∈ (allocGo lookup step remaining vids).1, row.village_id ≠ "V01") := by
  intro vids
  induction vids with
  | nil =>
    intro step remaining
    refine ⟨by simp [allocGo], fun h => h, ?_⟩
    intro row hrow
    exact absurd hrow (List.not_mem_nil row)
  | cons vid rest ih =>
    intro step remaining
    cases hr : lookup vid with
    | none =>
      simp only [allocGo, hr]
      exact ih (step + 1) remaining
    | some r =>
      by_cases hcond : vid = "V01" ∨ remaining ≤ 0
      · simp only [allocGo, hr, if_pos hcond]
        exact ih (step + 1) remaining
      · have hvid : vid ≠ "V01" := (not_or.mp hcond).1
        have hpos : 0 < remaining := not_le.mp (not_or.mp hcond).2
        have hkle : min (kitTier r.severity_score) remaining ≤ remaining :=
          min_le_right _ _
        have ihr := ih (step + 1) (remaining - min (kitTier r.severity_score) remaining)
        simp only [allocGo, hr, if_neg hcond, List.map_cons, List.sum_cons]
        refine ⟨?_, ?_, ?_⟩
        · rw [ihr.1]
          ring
        · intro _
          exact ihr.2.1 (by omega)
        · intro row hrow
          rcases List.mem_cons.mp hrow with h | h
          · rw [h]
            exact hvid
          · exact ihr.2.2 row h

/-- **C7** — for every route list, village lookup and capacity `C ≥ 0`: the
total kits in the manifest returned by `allocate_resources` never exceed `C`,
no manifest row is for the depot `"V01"`, and the reported capacity consumed
equals the total kits assigned. -/
theorem C7_capacity_invariant (route_ids : List String)
    (lookup : String → Option VillageRow) (van_capacity : Int)
    (hcap : 0 ≤ van_capacity) :
    ((allocate_resources route_ids lookup van_capacity).1.map ManifestRow.kits).sum ≤
      van_capacity ∧
    (∀ row ∈ (allocate_resources route_ids lookup van_capacity).1,
      row.village_id ≠ "V01") ∧
    (allocate_resources route_ids lookup van_capacity).2 =
      ((allocate_resources route_ids lookup van_capacity).1.map ManifestRow.kits).sum := by
  have h := allocGo_invariant lookup route_ids 0 van_capacity
  have h1 := h.1
  have h2 := h.2.1 hcap
  refine ⟨?_, h.2.2, ?_⟩
  · show ((allocGo lookup 0 van_capacity route_ids).1.map ManifestRow.kits).sum ≤ van_capacity
    omega
  · show van_capacity - (allocGo lookup 0 van_capacity route_ids).2 =
      ((allocGo lookup 0 van_capacity route_ids).1.map ManifestRow.kits).sum
    omega

/-- Witness for C7: capacity 5 with the depot and one high-severity stop. -/
theorem C7_capacity_invariant_witness :
    (0 : ℤ) ≤ 5 ∧
    ((allocate_resources ["V01", "V09"] lookupC6 5).1.map ManifestRow.kits).sum ≤ 5 ∧
    (allocate_resources ["V01", "V09"] lookupC6 5).2 =
      ((allocate_resources ["V01", "V09"] lookupC6 5).1.map ManifestRow.kits).sum :=
  ⟨by decide, (C7_capacity_invariant ["V01", "V09"] lookupC6 5 (by decide)).1,
    (C7_capacity_invariant ["V01", "V09"] lookupC6 5 (by decide)).2.2⟩

/-- Non-depot node indices of a data model: the candidates for visiting or
skipping. -/
def nonDepotNodes (d : DataModel) : List Nat :=
  (List.range d.time_matrix.length).filter fun i => i ≠ d.depot

/-- All sublists of a list (order preserved). -/
def sublistsOf : List Nat → List (List Nat)
  | [] => [[]]
  | x :: xs => sublistsOf xs ++ (sublistsOf xs).map fun s => x :: s

/-- All ways to insert `x` into a list. -/
def insertEverywhere (x : Nat) : List Nat → List (List Nat)
  | [] => [[x]]
  | y :: ys => (x :: y :: ys) :: (insertEverywhere x ys).map fun zs => y :: zs

/-- All permutations of a list (structural recursion, so that concrete
instances evaluate inside the kernel). -/
def permsOf : List Nat → List (List Nat)
  | [] => [[]]
  | x :: xs => (permsOf xs).flatMap fun p => insertEverywhere x p

/-- All ways to route `k` vehicles over distinct nodes drawn from `avail`:
each vehicle takes an ordered subset of the still-available nodes, so each
non-depot node is visited by at most one vehicle (the per-node disjunction),
and unrouted nodes are skipped. -/
def assignments : Nat → List Nat → List (List (List Nat))
  | 0, _ => [[]]
  | k + 1, avail =>
    ((sublistsOf avail).flatMap fun s => permsOf s).flatMap fun r =>
      (assignments k (avail.filter fun i => i ∉ r)).map fun rs => r :: rs

/-- The spec objective (§4.3) of an assignment, over a precomputed
disjunction list: total transit-plus-service cost of all routes plus the
penalty of every listed node that no route visits. -/
def objectiveWith (d : DataModel) (pens : List (Nat × ℤ)) (routes : List (List Nat)) : ℤ :=
  (routes.map fun r => (routeTime d r : ℤ)).sum +
    ((pens.filter fun p => routes.all fun r => !(r.contains p.1)).map fun p => p.2).sum

/-- Hard feasibility of an assignment: every vehicle's depot-to-depot route
time is within the budget. -/
def assignmentOk (d : DataModel) (max_time : Nat) (routes : List (List Nat)) : Bool :=
  routes.all fun r => routeTime d r ≤ max_time

/-- First minimum of `f` over a list: a deterministic tie-break preferring
the earlier candidate. -/
def argminBy {α : Type} (f : α → ℤ) : List α → Option α
  | [] => none
  | a :: rest =>
    match argminBy f rest with
    | none => some a
    | some b => if f a ≤ f b then some a else some b

/-- Modelled from the spec: the search of §4.3 itself lives in the external
OR-Tools library (`routing.SolveWithParameters`), not under `src/`; the spec
(§4.3, §9) admits any metaheuristic respecting the hard constraints. This is
the idealized conforming instance: exact minimization of the spec objective
over all feasible assignments of the `fleet_size` vehicles, deterministic by
the first-minimum tie-break. -/
def specSolve (d : DataModel) (fleet_size : Nat) (max_time : Nat) :
    Option (List (List Nat)) :=
  argminBy (objectiveWith d (disjunctions d))
    ((assignments fleet_size (nonDepotNodes d)).filter fun routes =>
      assignmentOk d max_time routes)

/-- Number of villages visited by an assignment (its routes hold distinct
non-depot nodes). -/
def visitedCount (routes : List (List Nat)) : Nat :=
  (routes.map List.length).sum

lemma argminBy_eq_none {α : Type} (f : α → ℤ) :
    ∀ l : List α, argminBy f l = none → l = []
  | [], _ => rfl
  | b :: rest, h => by
      rw [argminBy] at h
      cases hrec : argminBy f rest with
      | none =>
        rw [hrec] at h
        exact Option.noConfusion h
      | some c =>
        rw [hrec] at h
        dsimp only at h
        by_cases hle : f b ≤ f c
        · rw [if_pos hle] at h
          exact Option.noConfusion h
        · rw [if_neg hle] at h
          exact Option.noConfusion h

lemma argminBy_mem {α : Type} (f : α → ℤ) :
    ∀ (l : List α) (a : α), argminBy f l = some a → a ∈ l
  | [], a, h => by simp [argminBy] at h
  | b :: rest, a, h => by
      rw [argminBy] at h
      cases hrec : argminBy f rest with
      | none =>
        rw [hrec] at h
        cases h
        exact List.mem_cons_self b rest
      | some c =>
        rw [hrec] at h
        dsimp only at h
        by_cases hle : f b ≤ f c
        · rw [if_pos hle] at h
          cases h
          exact List.mem_cons_self b rest
        · rw [if_neg hle] at h
          cases h
          exact List.mem_cons_of_mem b (argminBy_mem f rest a hrec)

lemma argminBy_le {α : Type} (f : α → ℤ) :
    ∀ (l : List α) (a : α), argminBy f l = some a → ∀ x ∈ l, f a ≤ f x
  | [], a, h => by simp [argminBy] at h
  | b :: rest, a, h => by
      intro x hx
      rw [argminBy] at h
      cases hrec : argminBy f rest with
      | none =>
        rw [hrec] at h
        cases h
        rcases List.mem_cons.mp hx with hxb | hxr
        · rw [hxb]
        · rw [argminBy_eq_none f rest hrec] at hxr
          exact absurd hxr (List.not_mem_nil x)
      | some c =>
        rw [hrec] at h
        dsimp only at h
        have hrest := argminBy_le f rest c hrec
        by_cases hle : f b ≤ f c
        · rw [if_pos hle] at h
          cases h
          rcases List.mem_cons.mp hx with hxb | hxr
          · rw [hxb]
          · exact le_trans hle (hrest x hxr)
        · rw [if_neg hle] at h
          cases h
          rcases List.mem_cons.mp hx with hxb | hxr
          · rw [hxb]
            exact le_of_lt (not_le.mp hle)
          · exact hrest x hxr

lemma argminBy_isSome {α : Type} (f : α → ℤ) :
    ∀ l : List α, l ≠ [] → ∃ a, argminBy f l = some a
  | [], h => absurd rfl h
  | b :: rest, _ => by
      rw [argminBy]
      cases argminBy f rest with
      | none => exact ⟨b, rfl⟩
      | some c =>
        dsimp only
        by_cases hle : f b ≤ f c
        · exact ⟨b, by rw [if_pos hle]⟩
        · exact ⟨c, by rw [if_neg hle]⟩

/-- **C9 (amended)** — increasing the time budget keeps every feasible
assignment feasible, so the solve still succeeds and its objective value
never increases; the visited-village count itself is not monotone (see the
counterexample). -/
theorem C9_budget_monotone_objective (d : DataModel) (fleet_size T1 T2 : Nat)
    (hT : T1 ≤ T2) (s1 : List (List Nat)) (h1 : specSolve d fleet_size T1 = some s1) :
    ∃ s2, specSolve d fleet_size T2 = some s2 ∧
      objectiveWith d (disjunctions d) s2 ≤ objectiveWith d (disjunctions d) s1 := by
  have hmem := argminBy_mem _ _ _ h1
  rcases List.mem_filter.mp hmem with ⟨hass, hok1⟩
  have hok2 : assignmentOk d T2 s1 = true := by
    rw [assignmentOk, List.all_eq_true] at hok1 ⊢
    intro r hr
    have hr1 := hok1 r hr
    rw [decide_eq_true_iff] at hr1 ⊢
    omega
  have hmem2 : s1 ∈ (assignments fleet_size (nonDepotNodes d)).filter fun routes =>
      assignmentOk d T2 routes :=
    List.mem_filter.mpr ⟨hass, hok2⟩
  have hne : ((assignments fleet_size (nonDepotNodes d)).filter fun routes =>
      assignmentOk d T2 routes) ≠ [] := by
    intro hnil
    rw [hnil] at hmem2
    exact List.not_mem_nil _ hmem2
  rcases argminBy_isSome (objectiveWith d (disjunctions d)) _ hne with ⟨s2, hs2⟩
  exact ⟨s2, hs2, argminBy_le _ _ _ hs2 s1 hmem2⟩

/-- Counterexample input for C9: depot 0, two nearby low-severity villages
1 and 2, and one distant severity-9.9 village 3 reachable only under the
larger budget. -/
def dataC9 : DataModel :=
  { time_matrix := [[0, 10, 10, 200], [10, 0, 10, 200], [10, 12, 0, 200],
      [200, 200, 200, 0]],
    cases := [0, 0, 0, 0], prizes := [0, 0, 0, 99 / 10], depot := 0,
    village_ids := ["V01", "V02", "V03", "V04"], num_vehicles := 1 }

lemma dataC9_pen1 : nodePenalty dataC9.prizes 1 = 500 := by
  rw [nodePenalty, show dataC9.prizes.getD 1 0 = 0 from rfl, zero_mul]
  norm_num [pyInt]

lemma dataC9_pen2 : nodePenalty dataC9.prizes 2 = 500 := by
  rw [nodePenalty, show dataC9.prizes.getD 2 0 = 0 from rfl, zero_mul]
  norm_num [pyInt]

lemma dataC9_pen3 : nodePenalty dataC9.prizes 3 = 99000 := by
  rw [nodePenalty, show dataC9.prizes.getD 3 0 = (99 : ℚ) / 10 from rfl]
  rw [show (99 : ℚ) / 10 * 10000 = 99000 from by norm_num]
  norm_num [pyInt]

lemma dataC9_pens : disjunctions dataC9 = [(1, 500), (2, 500), (3, 99000)] := by
  have hd : disjunctions dataC9 =
      [(1, nodePenalty dataC9.prizes 1), (2, nodePenalty dataC9.prizes 2),
        (3, nodePenalty dataC9.prizes 3)] := by
    rw [disjunctions, show List.range dataC9.time_matrix.length = [0, 1, 2, 3] from rfl]
    rfl
  rw [hd, dataC9_pen1, dataC9_pen2, dataC9_pen3]

lemma dataC9_solve_100 : specSolve dataC9 1 100 = some [[1, 2]] := by
  rw [specSolve, dataC9_pens]
  decide

lemma dataC9_solve_430 : specSolve dataC9 1 430 = some [[3]] := by
  rw [specSolve, dataC9_pens]
  decide

/-- **C9 (counterexample)** — coverage is not monotone in the time budget:
on `dataC9` with one vehicle, the solve at budget 100 visits two villages
(nodes 1 and 2), while the solve at the larger budget 430 visits only one
(node 3, whose huge skip penalty dominates once it becomes reachable), so
the visited count decreases from 2 to 1. -/
theorem C9_counterexample_coverage_not_monotone :
    (100 : Nat) ≤ 430 ∧
    Option.map visitedCount (specSolve dataC9 1 100) = some 2 ∧
    Option.map visitedCount (specSolve dataC9 1 430) = some 1 ∧
    ¬((2 : Nat) ≤ 1) := by
  refine ⟨by decide, ?_, ?_, by decide⟩
  · rw [dataC9_solve_100]
    rfl
  · rw [dataC9_solve_430]
    rfl

/-- Witness for the amended C9 theorem at the counterexample instance. -/
theorem C9_budget_monotone_objective_witness :
    ∃ s2, specSolve dataC9 1 430 = some s2 ∧
      objectiveWith dataC9 (disjunctions dataC9) s2 ≤
        objectiveWith dataC9 (disjunctions dataC9) [[1, 2]] :=
  C9_budget_monotone_objective dataC9 1 100 430 (by decide) [[1, 2]] dataC9_solve_100

end MobileClinic
